import Mathlib

/-!
Shallow embedding of `src/python/binary-tree.py` (the classic binary-trees
allocation benchmark) and proofs about it.

The Python `Node` holds an integer `item` and two optional child links.
`itemCheck` tests only the left link: if it is `None` it returns `item`,
otherwise it dereferences both children (crashing if `right` is `None`),
so the embedded `itemCheck` returns `Option Int`, with `none` standing for
the `AttributeError` that Python would raise.
-/

/-- A Python `Node`: an integer item and two optional child links. -/
inductive PyTree : Type where
  | mk (item : Int) (left : Option PyTree) (right : Option PyTree)

/-- `Node.item` field accessor. -/
def PyTree.item : PyTree → Int
  | .mk i _ _ => i

/-- `Node.left` field accessor. -/
def PyTree.left : PyTree → Option PyTree
  | .mk _ l _ => l

/-- `Node.right` field accessor. -/
def PyTree.right : PyTree → Option PyTree
  | .mk _ _ r => r

/-- `Node.itemCheck`: `if self.left == None: return self.item` and otherwise
`self.item + self.left.itemCheck() - self.right.itemCheck()`.  A `none`
result models the `AttributeError` Python raises when `left` is present but
`right` is absent. -/
def itemCheck : PyTree → Option Int
  | .mk item none _ => some item
  | .mk _ (some _) none => none
  | .mk item (some l) (some r) =>
      (itemCheck l).bind fun cl => (itemCheck r).bind fun cr =>
        some (item + cl - cr)

/-- `bottomUpTree(item, depth)`: `if depth <= 0: return Node(item, None, None)`
else `Node(item, bottomUpTree(2*item-1, depth-1), bottomUpTree(2*item, depth-1))`. -/
def bottomUpTree (item : Int) (depth : Int) : PyTree :=
  if depth ≤ 0 then PyTree.mk item none none
  else PyTree.mk item (some (bottomUpTree (2 * item - 1) (depth - 1)))
                      (some (bottomUpTree (2 * item) (depth - 1)))
termination_by depth.toNat
decreasing_by all_goals omega

/-- Well-formedness: every node has either both links absent or both present. -/
def wf : PyTree → Bool
  | .mk _ none none => true
  | .mk _ (some l) (some r) => wf l && wf r
  | .mk _ none (some _) => false
  | .mk _ (some _) none => false

/-- Number of nodes of a tree. -/
def size : PyTree → Nat
  | .mk _ none none => 1
  | .mk _ none (some r) => 1 + size r
  | .mk _ (some l) none => 1 + size l
  | .mk _ (some l) (some r) => 1 + size l + size r

/-- Sum of the checks of one `i`/`-i` seed pair at a given depth:
`bottomUpTree(i, depth).itemCheck() + bottomUpTree(-i, depth).itemCheck()`. -/
def pairCheck (i : Int) (depth : Int) : Option Int :=
  (itemCheck (bottomUpTree i depth)).bind fun a =>
    (itemCheck (bottomUpTree (-i) depth)).bind fun b => some (a + b)

/-- One line printed by `main`, kept structured: the stretch line, a loop
line (tree count, depth, check) or the long-lived-tree line. -/
inductive Line : Type where
  | stretch (depth : Int) (check : Int)
  | loop (count : Int) (depth : Int) (check : Int)
  | longLived (depth : Int) (check : Int)
deriving DecidableEq

/-- The seeds the inner loop runs over: Python `range(1, iterations)`,
i.e. `1, 2, ..., iterations - 1` (empty when `iterations <= 1`). -/
def seedList (iterations : Int) : List Int :=
  (List.range (iterations - 1).toNat).map fun k => ((k + 1 : Nat) : Int)

/-- One step of the inner loop's accumulation:
`check += bottomUpTree(i, depth).itemCheck()` followed by
`check += bottomUpTree(-i, depth).itemCheck()`. -/
def loopStep (depth : Int) (acc : Option Int) (i : Int) : Option Int :=
  acc.bind fun a =>
    (itemCheck (bottomUpTree i depth)).bind fun c1 =>
      (itemCheck (bottomUpTree (-i) depth)).bind fun c2 =>
        some (a + c1 + c2)

/-- The inner `for i in range(1, iterations)` loop starting from `check = 0`. -/
def loopBody (depth : Int) (iterations : Int) : Option Int :=
  (seedList iterations).foldl (loopStep depth) (some 0)

/-- The `while depth <= maxDepth` loop: at each depth it computes
`iterations = 1 << (maxDepth-depth+minDepth)`, runs the inner loop, emits
the `"%d\t trees of depth %d\t check: %d" % (iterations*2, depth, check)`
line and advances `depth` by 2. -/
def whileLoop (minDepth maxDepth depth : Int) : Option (List Line) :=
  if depth ≤ maxDepth then
    let iterations : Int := 2 ^ (maxDepth - depth + minDepth).toNat
    (loopBody depth iterations).bind fun check =>
      (whileLoop minDepth maxDepth (depth + 2)).bind fun rest =>
        some (Line.loop (iterations * 2) depth check :: rest)
  else some []
termination_by (maxDepth + 1 - depth).toNat
decreasing_by all_goals omega

/-- `main(n, minDepth)`: computes `maxDepth` (`n`, raised to `minDepth+2`
when `minDepth+2 > n`) and `stretchDepth = maxDepth+1`, prints the stretch
tree's check, builds the long-lived tree, runs the depth loop, and finally
prints the long-lived tree's check.  `none` models a crash. -/
def mainWith (n minDepth : Int) : Option (List Line) :=
  let maxDepth := if minDepth + 2 > n then minDepth + 2 else n
  let stretchDepth := maxDepth + 1
  (itemCheck (bottomUpTree 0 stretchDepth)).bind fun check =>
    let longLivedTree := bottomUpTree 0 maxDepth
    (whileLoop minDepth maxDepth minDepth).bind fun loopLines =>
      (itemCheck longLivedTree).bind fun llCheck =>
        some (Line.stretch stretchDepth check
                :: (loopLines ++ [Line.longLived maxDepth llCheck]))

/-- `main(n)` with the default `minDepth=4`, as invoked from `__main__`. -/
def pyMain (n : Int) : Option (List Line) :=
  mainWith n 4

/-- Whether the output contains a stretch line for the given depth. -/
def hasStretchAtDepth (lines : List Line) (d : Int) : Bool :=
  lines.any fun l =>
    match l with
    | .stretch d' _ => d' = d
    | _ => false

/-- Digit run as accepted by Python `int`: one or more ASCII decimal
digits, with single underscores allowed only between digits. -/
def digitRun : List Char → Bool
  | [] => false
  | [c] => c.isDigit
  | c :: '_' :: rest => c.isDigit && digitRun rest
  | c :: rest => c.isDigit && digitRun rest

/-- Numeric value of a digit run (underscores removed). -/
def digitVal (cs : List Char) : Nat :=
  (cs.filter fun c => c ≠ '_').foldl (fun a c => 10 * a + (c.toNat - 48)) 0

/-- Python `int(s)` on a string, modelled for ASCII input: surrounding
whitespace is stripped, then an optional sign followed by a base-10 digit
run; anything else raises `ValueError`, modelled as `none`. -/
def pyInt (s : String) : Option Int :=
  let cs := ((s.toList.dropWhile Char.isWhitespace).reverse.dropWhile
      Char.isWhitespace).reverse
  match cs with
  | '+' :: rest => if digitRun rest then some (digitVal rest : Int) else none
  | '-' :: rest => if digitRun rest then some (-(digitVal rest : Int)) else none
  | rest => if digitRun rest then some (digitVal rest : Int) else none

/-- The `__main__` block: `main(int(sys.argv[1]))`.  `argv` includes the
script name at index 0; a missing argument (IndexError) or a failed parse
(ValueError) propagates, modelled as `none`; `some lines` means the process
printed `lines` and exited with status 0. -/
def runProgram (argv : List String) : Option (List Line) :=
  match argv[1]? with
  | none => none
  | some s =>
      match pyInt s with
      | none => none
      | some n => pyMain n

/-! ### Basic unfolding lemmas -/

theorem bottomUpTree_leaf (item d : Int) (h : d ≤ 0) :
    bottomUpTree item d = .mk item none none := by
  rw [bottomUpTree]; simp [h]

theorem bottomUpTree_node (item d : Int) (h : 0 < d) :
    bottomUpTree item d =
      .mk item (some (bottomUpTree (2 * item - 1) (d - 1)))
               (some (bottomUpTree (2 * item) (d - 1))) := by
  rw [bottomUpTree]; simp [h.not_le]

theorem itemCheck_leaf (item : Int) (r : Option PyTree) :
    itemCheck (.mk item none r) = some item := by
  cases r <;> rfl

theorem itemCheck_node (item : Int) (l r : PyTree) :
    itemCheck (.mk item (some l) (some r)) =
      (itemCheck l).bind fun cl => (itemCheck r).bind fun cr =>
        some (item + cl - cr) := rfl

/-! ### The checksum of a built tree -/

/-- For depth at least 1 the checksum of `bottomUpTree item d` is `item - 1`. -/
theorem check_build : ∀ (d : Int), 1 ≤ d → ∀ item : Int,
    itemCheck (bottomUpTree item d) = some (item - 1) := by
  refine Int.le_induction ?_ ?_
  · intro item
    rw [bottomUpTree_node item 1 (by norm_num)]
    norm_num [bottomUpTree_leaf, itemCheck_leaf, itemCheck_node]
    ring
  · intro d hd ih item
    rw [bottomUpTree_node item (d + 1) (by omega)]
    simp only [add_sub_cancel_right]
    rw [itemCheck_node, ih (2 * item - 1), ih (2 * item)]
    simp only [Option.some_bind]
    congr 1
    ring

/-- For depth at most 0 the built tree is a single leaf holding `item`. -/
theorem check_build_leaf (item d : Int) (h : d ≤ 0) :
    itemCheck (bottomUpTree item d) = some item := by
  rw [bottomUpTree_leaf item d h, itemCheck_leaf]

/-- Every tree produced by `bottomUpTree` is well formed. -/
theorem wf_build : ∀ (item d : Int), wf (bottomUpTree item d) = true := by
  intro item d
  induction item, d using bottomUpTree.induct with
  | case1 item d h => rw [bottomUpTree_leaf item d h]; rfl
  | case2 item d h ihl ihr =>
      rw [bottomUpTree_node item d (by omega)]
      simp [wf, ihl, ihr]

/-- On well-formed trees the checksum never hits the missing-link crash. -/
theorem isSome_itemCheck : ∀ t : PyTree, wf t = true →
    (itemCheck t).isSome = true := by
  intro t
  induction t using itemCheck.induct with
  | case1 item r =>
      intro h
      cases r with
      | none => rfl
      | some r' => simp [wf] at h
  | case2 item l => intro h; simp [wf] at h
  | case3 item l r ihl ihr =>
      intro h
      simp only [wf, Bool.and_eq_true] at h
      obtain ⟨cl, hcl⟩ := Option.isSome_iff_exists.mp (ihl h.1)
      obtain ⟨cr, hcr⟩ := Option.isSome_iff_exists.mp (ihr h.2)
      rw [itemCheck_node, hcl, hcr]
      rfl

/-! ### The inner loop -/

theorem loopStep_some (depth : Int) (hd : 1 ≤ depth) (a i : Int) :
    loopStep depth (some a) i = some (a - 2) := by
  rw [loopStep, check_build depth hd i, check_build depth hd (-i)]
  simp only [Option.some_bind]
  congr 1
  ring

theorem foldl_loopStep (depth : Int) (hd : 1 ≤ depth) : ∀ (l : List Int) (a : Int),
    l.foldl (loopStep depth) (some a) = some (a - 2 * l.length) := by
  intro l
  induction l with
  | nil => intro a; simp
  | cons i t ih =>
      intro a
      rw [List.foldl_cons, loopStep_some depth hd a i, ih (a - 2)]
      simp only [List.length_cons]
      congr 1
      push_cast
      ring

theorem loopBody_eq (depth iterations : Int) (hd : 1 ≤ depth) :
    loopBody depth iterations =
      some (-2 * ((iterations - 1).toNat : Int)) := by
  rw [loopBody, foldl_loopStep depth hd]
  have hl : (seedList iterations).length = (iterations - 1).toNat := by
    rw [seedList, List.length_map, List.length_range]
  rw [hl]
  congr 1
  ring

/-! ### The outer loop and the driver -/

theorem whileLoop_stop (minD maxD depth : Int) (h : ¬ depth ≤ maxD) :
    whileLoop minD maxD depth = some [] := by
  rw [whileLoop]; simp [h]

theorem whileLoop_go (minD maxD depth : Int) (h : depth ≤ maxD) (hd : 1 ≤ depth) :
    whileLoop minD maxD depth =
      (whileLoop minD maxD (depth + 2)).bind fun rest =>
        some (Line.loop (2 ^ (maxD - depth + minD).toNat * 2) depth
                (-2 * (((2 : Int) ^ (maxD - depth + minD).toNat - 1).toNat : Int))
              :: rest) := by
  rw [whileLoop]
  simp only [if_pos h]
  rw [loopBody_eq _ _ hd, Option.some_bind]

theorem whileLoop_isSome (minD maxD : Int) : ∀ depth : Int, 1 ≤ depth →
    (whileLoop minD maxD depth).isSome = true := by
  intro depth
  induction depth using whileLoop.induct minD maxD with
  | case1 depth h ih =>
      intro h1
      rw [whileLoop_go minD maxD depth h h1]
      obtain ⟨ls, hls⟩ := Option.isSome_iff_exists.mp (ih (by omega))
      rw [hls]
      rfl
  | case2 depth h =>
      intro _
      rw [whileLoop_stop minD maxD depth h]
      rfl

/-- The full depth loop for `n = 4` (`minDepth = 4`, `maxDepth = 6`). -/
theorem whileLoop_four_six :
    whileLoop 4 6 4 = some [Line.loop 128 4 (-126), Line.loop 32 6 (-30)] := by
  rw [whileLoop_go 4 6 4 (by norm_num) (by norm_num)]
  norm_num
  rw [whileLoop_go 4 6 6 (by norm_num) (by norm_num)]
  norm_num
  rw [whileLoop_stop 4 6 8 (by norm_num)]
  decide

/-- `maxDepth` as computed by `main` equals `max n (minDepth + 2)` for the
default `minDepth = 4`. -/
theorem maxDepth_eq (n : Int) :
    (if (4 : Int) + 2 > n then 4 + 2 else n) = max n 6 := by
  rcases le_or_lt 6 n with h | h
  · rw [if_neg (by omega), max_eq_left h]
  · rw [if_pos (by omega), max_eq_right (by omega : n ≤ 6)]
    norm_num

/-- The driver's output always exists and consists of the stretch line,
the loop lines, and the long-lived-tree line, in that order. -/
theorem pyMain_shape (n : Int) : ∃ mid : List Line,
    pyMain n = some (Line.stretch (max n 6 + 1) (-1)
      :: (mid ++ [Line.longLived (max n 6) (-1)])) := by
  obtain ⟨mid, hmid⟩ :=
    Option.isSome_iff_exists.mp (whileLoop_isSome 4 (max n 6) 4 (by norm_num))
  refine ⟨mid, ?_⟩
  rw [pyMain, mainWith]
  simp only [maxDepth_eq n]
  rw [check_build (max n 6 + 1) (by have := le_max_right n 6; omega) 0,
    Option.some_bind, hmid, Option.some_bind,
    check_build (max n 6) (by have := le_max_right n 6; omega) 0,
    Option.some_bind]
  norm_num

/-- The driver never crashes: `main(n)` produces output for every `n`. -/
theorem pyMain_isSome (n : Int) : (pyMain n).isSome = true := by
  obtain ⟨mid, hmid⟩ := pyMain_shape n
  rw [hmid]
  rfl

/-- The full output of `main(4)`. -/
theorem pyMain_four :
    pyMain 4 = some [Line.stretch 7 (-1), Line.loop 128 4 (-126),
      Line.loop 32 6 (-30), Line.longLived 6 (-1)] := by
  rw [pyMain, mainWith]
  simp only [maxDepth_eq 4]
  have h4 : max (4 : Int) 6 = 6 := by norm_num
  rw [h4]
  norm_num
  rw [check_build 7 (by norm_num) 0, Option.some_bind, whileLoop_four_six,
    Option.some_bind, check_build 6 (by norm_num) 0, Option.some_bind]
  norm_num

/-- `size` on an internal node. -/
theorem size_node (item : Int) (l r : PyTree) :
    size (.mk item (some l) (some r)) = 1 + size l + size r := rfl

/-! ### Claims -/

/-- C1: the spec says the driver builds exactly `2*iterations` trees per
depth, seeding `i` and `-i` for `i` from 1 to `iterations` inclusive, and
reports that count.  The code's `for i in range(1, iterations)` stops at
`iterations - 1`: at `n = 4`, depth 4 (`iterations = 64`) it builds
`2 * 63 = 126` trees and a check of `-126`, yet labels the line with the
count `128`; the seed `64` is never used.  The printed count contradicts
the loop itself, so the loop bound — not the claim — is the slip. -/
theorem C1_loop_offByOne :
    pyMain 4 = some [Line.stretch 7 (-1), Line.loop 128 4 (-126),
      Line.loop 32 6 (-30), Line.longLived 6 (-1)] ∧
    2 * (seedList 64).length = 126 ∧
    ¬ (64 : Int) ∈ seedList 64 :=
  ⟨pyMain_four, by decide, by decide⟩

/-- C2 (counterexample): at `n = 4` the output contains no stretch line of
depth 6 — the stretch line is printed for depth `stretchDepth = 7`. -/
theorem C2_no_stretch_six :
    (pyMain 4).map (fun ls => hasStretchAtDepth ls 6) = some false := by
  rw [pyMain_four]
  decide

/-- C2 (amended): at `n = 4` the program prints a stretch line for depth 7
(`stretchDepth = maxDepth + 1`), loop lines for depths 4 and 6, and a final
long-lived-tree line for depth 6; the output equals a fixed list, so every
printed checksum is deterministic across runs. -/
theorem C2_output_n4 :
    pyMain 4 = some [Line.stretch 7 (-1), Line.loop 128 4 (-126),
      Line.loop 32 6 (-30), Line.longLived 6 (-1)] :=
  pyMain_four

/-- C3 (counterexample): at `i = 1`, even depth `d = 2`, the pair sum
`checksum(build(1,2)) + checksum(build(-1,2))` is `-2`, not 0. -/
theorem C3_pair_sum_ne_zero :
    pairCheck 1 2 = some (-2) ∧ some (-2 : Int) ≠ some (0 : Int) := by
  constructor
  · rw [pairCheck, check_build 2 (by norm_num) 1, Option.some_bind,
      check_build 2 (by norm_num) (-1), Option.some_bind]
    norm_num
  · decide

/-- C3 (amended): for even depth the pair sum is 0 only at `d = 0`; for
every even `d ≥ 2` (indeed every `d ≥ 1`) it equals `-2`. -/
theorem C3_pair_sum_amended : ∀ (i d : Int), 0 ≤ d → d % 2 = 0 →
    pairCheck i d = some (if d = 0 then 0 else -2) := by
  intro i d h0 _
  by_cases hd : d = 0
  · subst hd
    rw [pairCheck, check_build_leaf i 0 le_rfl, Option.some_bind,
      check_build_leaf (-i) 0 le_rfl, Option.some_bind]
    simp
  · rw [pairCheck, check_build d (by omega) i, Option.some_bind,
      check_build d (by omega) (-i), Option.some_bind, if_neg hd]
    congr 1
    ring

/-- Witness for the amended C3 at `i = 3`, `d = 4`. -/
theorem C3_pair_sum_amended_witness : pairCheck 3 4 = some (-2) := by
  have h := C3_pair_sum_amended 3 4 (by norm_num) (by norm_num)
  simpa using h

/-- C4: `build(item, d)` produces a perfect binary tree with exactly
`2^(d+1) - 1` nodes, for every integer `item` and depth `d ≥ 0`. -/
theorem C4_node_count : ∀ (item d : Int), 0 ≤ d →
    size (bottomUpTree item d) = 2 ^ (d + 1).toNat - 1 := by
  have H : ∀ d : Int, 0 ≤ d → ∀ item : Int,
      size (bottomUpTree item d) = 2 ^ (d + 1).toNat - 1 := by
    refine Int.le_induction ?_ ?_
    · intro item
      rw [bottomUpTree_leaf item 0 le_rfl]
      rfl
    · intro d hd ih item
      rw [bottomUpTree_node item (d + 1) (by omega)]
      simp only [add_sub_cancel_right]
      rw [size_node, ih (2 * item - 1), ih (2 * item)]
      have h1 : (d + 1 + 1).toNat = (d + 1).toNat + 1 := by omega
      rw [h1, pow_succ]
      have h2 : 1 ≤ 2 ^ (d + 1).toNat := Nat.one_le_two_pow
      omega
  exact fun item d hd => H d hd item

/-- Witness for C4 at `item = 5`, `d = 2`: the tree has `2^3 - 1 = 7` nodes. -/
theorem C4_node_count_witness : size (bottomUpTree 5 2) = 7 := by
  have h := C4_node_count 5 2 (by norm_num)
  norm_num at h
  exact h

/-- C5: for every depth `d ≥ 1` the checksum of `build(item, d)` is
`item - 1` independently of `d`; in particular the stretch and long-lived
trees (seed 0) both check to `-1`, and each `i`/`-i` seed pair contributes
exactly `-2` to the loop's sum. -/
theorem C5_check_closed_form :
    (∀ (item d : Int), 1 ≤ d → itemCheck (bottomUpTree item d) = some (item - 1)) ∧
    (∀ d : Int, 1 ≤ d → itemCheck (bottomUpTree 0 d) = some (-1)) ∧
    (∀ (i d : Int), 1 ≤ d → pairCheck i d = some (-2)) := by
  refine ⟨fun item d hd => check_build d hd item, ?_, ?_⟩
  · intro d hd
    rw [check_build d hd 0]
    norm_num
  · intro i d hd
    rw [pairCheck, check_build d hd i, Option.some_bind,
      check_build d hd (-i), Option.some_bind]
    congr 1
    ring

/-- Witness for C5 at concrete depths. -/
theorem C5_check_closed_form_witness :
    itemCheck (bottomUpTree 5 3) = some 4 ∧
    itemCheck (bottomUpTree 0 2) = some (-1) ∧
    pairCheck 2 4 = some (-2) := by
  refine ⟨?_, C5_check_closed_form.2.1 2 (by norm_num),
    C5_check_closed_form.2.2 2 4 (by norm_num)⟩
  have h := C5_check_closed_form.1 5 3 (by norm_num)
  norm_num at h
  exact h

/-- C6: `build(item, depth)` returns a leaf holding `item` when
`depth ≤ 0`, and otherwise a node holding `item` with left subtree
`build(2*item-1, depth-1)` and right subtree `build(2*item, depth-1)`;
being a Lean function of its arguments, it is pure. -/
theorem C6_build_defn : ∀ (item depth : Int),
    (depth ≤ 0 → bottomUpTree item depth = PyTree.mk item none none) ∧
    (0 < depth → bottomUpTree item depth =
      PyTree.mk item (some (bottomUpTree (2 * item - 1) (depth - 1)))
                     (some (bottomUpTree (2 * item) (depth - 1)))) :=
  fun item depth => ⟨bottomUpTree_leaf item depth, bottomUpTree_node item depth⟩

/-- Witness for C6 at `item = 5` with `depth = 0` and `depth = 1`. -/
theorem C6_build_defn_witness :
    bottomUpTree 5 0 = PyTree.mk 5 none none ∧
    bottomUpTree 5 1 = PyTree.mk 5 (some (bottomUpTree 9 0)) (some (bottomUpTree 10 0)) := by
  constructor
  · exact (C6_build_defn 5 0).1 le_rfl
  · have h := (C6_build_defn 5 1).2 (by norm_num)
    norm_num at h
    exact h

/-- C7: on trees produced by `build` (equivalently, well-formed trees),
`itemCheck` returns `item` on a leaf and `item + checksum(left) -
checksum(right)` on an internal node, both children's checksums being
defined. -/
theorem C7_itemCheck_defn :
    (∀ item : Int, itemCheck (PyTree.mk item none none) = some item) ∧
    (∀ (item : Int) (l r : PyTree), wf l = true → wf r = true →
      ∃ cl cr, itemCheck l = some cl ∧ itemCheck r = some cr ∧
        itemCheck (PyTree.mk item (some l) (some r)) = some (item + cl - cr)) := by
  constructor
  · intro item
    exact itemCheck_leaf item none
  · intro item l r hl hr
    obtain ⟨cl, hcl⟩ := Option.isSome_iff_exists.mp (isSome_itemCheck l hl)
    obtain ⟨cr, hcr⟩ := Option.isSome_iff_exists.mp (isSome_itemCheck r hr)
    exact ⟨cl, cr, hcl, hcr, by rw [itemCheck_node, hcl, Option.some_bind, hcr, Option.some_bind]⟩

/-- Witness for C7 on the node `Node(1, Node(2), Node(3))`. -/
theorem C7_itemCheck_defn_witness :
    itemCheck (PyTree.mk 1 (some (PyTree.mk 2 none none)) (some (PyTree.mk 3 none none)))
      = some 0 := by
  obtain ⟨cl, cr, hcl, hcr, h⟩ :=
    C7_itemCheck_defn.2 1 (PyTree.mk 2 none none) (PyTree.mk 3 none none) rfl rfl
  rw [itemCheck_leaf] at hcl hcr
  obtain rfl := Option.some.inj hcl
  obtain rfl := Option.some.inj hcr
  norm_num at h
  exact h

/-- C8: the driver fixes `minDepth = 4`, computes `maxDepth = max(n, 6)`
and `stretchDepth = maxDepth + 1`; its first output line is the stretch
tree's checksum at `stretchDepth` and its last the long-lived tree's
checksum at `maxDepth` (both `-1`). -/
theorem C8_driver_shape : ∀ n : Int, ∃ lines : List Line,
    pyMain n = some lines ∧
    itemCheck (bottomUpTree 0 (max n 6 + 1)) = some (-1) ∧
    itemCheck (bottomUpTree 0 (max n 6)) = some (-1) ∧
    lines.head? = some (Line.stretch (max n 6 + 1) (-1)) ∧
    lines.getLast? = some (Line.longLived (max n 6) (-1)) := by
  intro n
  obtain ⟨mid, hmid⟩ := pyMain_shape n
  refine ⟨_, hmid, ?_, ?_, rfl, ?_⟩
  · have h := check_build (max n 6 + 1) (by have := le_max_right n 6; omega) 0
    norm_num at h
    exact h
  · have h := check_build (max n 6) (by have := le_max_right n 6; omega) 0
    norm_num at h
    exact h
  · rw [← List.cons_append, List.getLast?_concat]

/-- C9: every node of a built tree has both links absent or both present,
and on such well-formed trees `itemCheck` never dereferences an absent
link (its result is always defined). -/
theorem C9_perfect_shape :
    (∀ (item d : Int), wf (bottomUpTree item d) = true) ∧
    (∀ t : PyTree, wf t = true → (itemCheck t).isSome = true) :=
  ⟨wf_build, isSome_itemCheck⟩

/-- Witness for C9: the depth-2 tree with seed 3 is well formed and its
checksum is defined. -/
theorem C9_perfect_shape_witness :
    (itemCheck (bottomUpTree 3 2)).isSome = true :=
  C9_perfect_shape.2 (bottomUpTree 3 2) (C9_perfect_shape.1 3 2)

/-- C10: the program produces output and exits 0 exactly when `argv[1]`
exists and parses as an integer; a missing argument (IndexError) or a
malformed one (ValueError) propagates and the process fails.  Resource
exhaustion (deep recursion, allocation) is outside the model. -/
theorem C10_cli_errors : ∀ argv : List String,
    (runProgram argv).isSome = true ↔
      ∃ s, argv[1]? = some s ∧ (pyInt s).isSome = true := by
  intro argv
  cases h1 : argv[1]? with
  | none => simp [runProgram, h1]
  | some s =>
      cases h2 : pyInt s with
      | none => simp [runProgram, h1, h2]
      | some n => simp [runProgram, h1, h2, pyMain_isSome n]
